import Mathlib

/-! Shallow embedding of the resilient file-transfer pipeline of the
`for_monday` service: the retry executor (`RetryStrategy`), the per-key
circuit breaker (`CircuitBreaker`), the per-item sliding-window rate
limiter, the queue drain loop (`processFileQueue`), the upload-response
handling of `processFile`, and the metrics store (`MetricsTracker`).
JavaScript numbers holding timestamps are modelled as `Int`, counters as
`Nat`, `Math.random()` as an explicit rational argument, and `setTimeout`
waits are recorded as data (delay lists) rather than as real time. -/

/-- Error value thrown by a JavaScript operation: the `message` string and
the optional `code` property (values such as `ETIMEDOUT` or `ECONNRESET`). -/
structure JsError where
  msg : String
  code : Option String := none
  deriving DecidableEq, Repr

/-- Result of one invocation of the retried operation, as far as
`RetryStrategy.execute` inspects it: whether the nested field
`result.data.assets[0].public_url` is present. -/
structure OpResult where
  hasPublicUrl : Bool
  deriving DecidableEq, Repr

/-- Loop body of `RetryStrategy.execute` (src/unnamed/part_000, lines 18-53).
`remaining` counts the loop iterations still allowed, equal to
`maxRetries + 1 - attempt`; the `0` case is unreachable from `execute`
because the `while (attempt <= maxRetries)` guard always holds on entry.
Returns the final outcome together with the number of times the operation
was invoked.  The `setTimeout` backoff waits do not affect the outcome and
are not recorded here. -/
def execGo (op : Nat → Except JsError OpResult) (checkPublicUrl : Bool) :
    Nat → Nat → Except JsError OpResult × Nat
  | _, 0 => (.error ⟨"unreachable: while loop exited", none⟩, 0)
  | attempt, remaining + 1 =>
    match op attempt with
    | .ok r =>
      if checkPublicUrl && !r.hasPublicUrl then
        if remaining = 0 then
          (.error ⟨"Max retries reached: Failed to get public URL", none⟩, 1)
        else
          let p := execGo op checkPublicUrl (attempt + 1) remaining
          (p.1, p.2 + 1)
      else (.ok r, 1)
    | .error e =>
      if remaining = 0 then (.error e, 1)
      else
        let p := execGo op checkPublicUrl (attempt + 1) remaining
        (p.1, p.2 + 1)

/-- `RetryStrategy.execute`: starts at `attempt = 0` and allows
`maxRetries + 1` loop iterations.  `checkPublicUrl` is the
`context.checkPublicUrl` flag of the JavaScript version. -/
def execute (maxRetries : Nat) (checkPublicUrl : Bool)
    (op : Nat → Except JsError OpResult) : Except JsError OpResult × Nat :=
  execGo op checkPublicUrl 0 (maxRetries + 1)

/-- Configuration of `RetryStrategy` (delays in milliseconds, rationals
because the jitter mixes in `Math.random()`).  Source defaults:
`baseDelay = 2000`, `maxDelay = 30000`, `jitterFactor = 0.2`. -/
structure RetryConfig where
  baseDelay : ℚ
  maxDelay : ℚ
  jitterFactor : ℚ
  deriving DecidableEq, Repr

/-- Default `RetryStrategy` options from the constructor. -/
def defaultRetryConfig : RetryConfig := ⟨2000, 30000, 1/5⟩

/-- Un-jittered delay computed by `RetryStrategy.calculateDelay`:
`min(baseDelay * 2 * attempt, maxDelay)` for the `complexity` error type,
`min(2 ^ attempt * baseDelay, maxDelay)` otherwise. -/
def rawDelay (cfg : RetryConfig) (attempt : Nat) (errorType : String) : ℚ :=
  if errorType = "complexity" then min (cfg.baseDelay * 2 * attempt) cfg.maxDelay
  else min (2 ^ attempt * cfg.baseDelay) cfg.maxDelay

/-- `RetryStrategy.calculateDelay` with `rand` standing for the
`Math.random()` sample: the base delay plus the jitter
`baseDelay * jitterFactor * (rand * 2 - 1)`, floored at zero. -/
def calculateDelay (cfg : RetryConfig) (attempt : Nat) (errorType : String)
    (rand : ℚ) : ℚ :=
  max 0 (rawDelay cfg attempt errorType +
    rawDelay cfg attempt errorType * cfg.jitterFactor * (rand * 2 - 1))

lemma execGo_all_error (op : Nat → Except JsError OpResult) (chk : Bool)
    (e : Nat → JsError) (hop : ∀ n, op n = .error (e n)) :
    ∀ remaining attempt,
      execGo op chk attempt (remaining + 1) =
        (.error (e (attempt + remaining)), remaining + 1) := by
  intro remaining
  induction remaining with
  | zero =>
    intro attempt
    simp [execGo, hop attempt]
  | succ r ih =>
    intro attempt
    have harg : attempt + 1 + r = attempt + (r + 1) := by omega
    show execGo op chk attempt (r + 1 + 1) = _
    rw [execGo, hop attempt]
    simp only [Nat.succ_ne_zero, if_false, ih (attempt + 1), harg]

/-- C1: when the operation throws on every invocation,
`RetryStrategy.execute` invokes it exactly `maxRetries + 1` times
(1 initial attempt plus `maxRetries` retries) and re-raises the error of
the last attempt (attempt number `maxRetries`); no earlier attempt's
error is surfaced to the caller. -/
theorem retry_execute_all_fail (m : Nat) (chk : Bool)
    (op : Nat → Except JsError OpResult) (e : Nat → JsError)
    (hop : ∀ n, op n = .error (e n)) :
    execute m chk op = (.error (e m), m + 1) := by
  have h := execGo_all_error op chk e hop m 0
  simpa [execute] using h

/-- Concrete run of `retry_execute_all_fail` at `maxRetries = 2`: three
invocations and the last error re-raised. -/
theorem retry_execute_all_fail_witness :
    execute 2 false (fun _ => .error ⟨"boom", none⟩) =
      (.error ⟨"boom", none⟩, 3) :=
  retry_execute_all_fail 2 false _ (fun _ => ⟨"boom", none⟩) (fun _ => rfl)

/-- C5: for every attempt `n ≥ 1` and every `Math.random()` sample in
`[0, 1]`, the jittered delay lies within the symmetric jitter band around
the un-jittered base delay:
`[max 0 ((1 - jitterFactor) * base), (1 + jitterFactor) * base]`. -/
theorem calculateDelay_jitter_band (cfg : RetryConfig) (attempt : Nat)
    (errorType : String) (rand : ℚ)
    (hb : 0 ≤ cfg.baseDelay) (hm : 0 ≤ cfg.maxDelay) (hj : 0 ≤ cfg.jitterFactor)
    (h1 : 1 ≤ attempt) (hr0 : 0 ≤ rand) (hr1 : rand ≤ 1) :
    max 0 ((1 - cfg.jitterFactor) * rawDelay cfg attempt errorType) ≤
        calculateDelay cfg attempt errorType rand ∧
      calculateDelay cfg attempt errorType rand ≤
        (1 + cfg.jitterFactor) * rawDelay cfg attempt errorType := by
  have hbase : 0 ≤ rawDelay cfg attempt errorType := by
    unfold rawDelay
    split
    · exact le_min (mul_nonneg (mul_nonneg hb (by norm_num)) (Nat.cast_nonneg _)) hm
    · exact le_min (mul_nonneg (by positivity) hb) hm
  unfold calculateDelay
  set B := rawDelay cfg attempt errorType with hB
  constructor
  · apply max_le_max le_rfl
    nlinarith [mul_nonneg (mul_nonneg hbase hj) hr0]
  · apply max_le
    · nlinarith [mul_nonneg (mul_nonneg hbase hj)
        (by linarith : (0:ℚ) ≤ 1 - rand)]
    · nlinarith [mul_nonneg (mul_nonneg hbase hj)
        (by linarith : (0:ℚ) ≤ 1 - rand)]

/-- Concrete instance of `calculateDelay_jitter_band` at the default
configuration, attempt 1, a standard error and `rand = 1/2`. -/
theorem calculateDelay_jitter_band_witness :
    max 0 ((1 - defaultRetryConfig.jitterFactor) *
        rawDelay defaultRetryConfig 1 "standard") ≤
        calculateDelay defaultRetryConfig 1 "standard" (1/2) ∧
      calculateDelay defaultRetryConfig 1 "standard" (1/2) ≤
        (1 + defaultRetryConfig.jitterFactor) *
          rawDelay defaultRetryConfig 1 "standard" :=
  calculateDelay_jitter_band defaultRetryConfig 1 "standard" (1/2)
    (by norm_num [defaultRetryConfig]) (by norm_num [defaultRetryConfig])
    (by norm_num [defaultRetryConfig]) (by norm_num)
    (by norm_num) (by norm_num)

/-- States of a `CircuitBreaker` monitor. -/
inductive CBStatus where
  | CLOSED
  | OPEN
  | HALF_OPEN
  deriving DecidableEq, Repr

/-- `CircuitBreaker` constructor options
(src/src/utils/FileValidator.js, second module).  Source defaults:
`failureThreshold = 8`, `resetTimeout = 120000`, `cooldownPeriod = 180000`,
`successThreshold = 2`. -/
structure CBConfig where
  failureThreshold : Nat
  resetTimeout : Int
  cooldownPeriod : Int
  successThreshold : Nat
  deriving DecidableEq, Repr

/-- Default `CircuitBreaker` options from the constructor. -/
def defaultCBConfig : CBConfig := ⟨8, 120000, 180000, 2⟩

/-- Per-key monitor record created by `CircuitBreaker.getMonitor`. -/
structure Monitor where
  failures : Nat
  successes : Nat
  lastFailure : Option Int
  lastSuccess : Option Int
  status : CBStatus
  cooldownStart : Option Int
  deriving DecidableEq, Repr

/-- Fresh monitor as created by `getMonitor` on first access. -/
def initMonitor : Monitor := ⟨0, 0, none, none, .CLOSED, none⟩

/-- Outcome of `CircuitBreaker.execute`: the operation's value, the
operation's re-thrown error, or the circuit-open rejection carrying the
remaining cooldown in milliseconds
(`resetTimeout - (now - lastFailure)`). -/
inductive CBResult (α : Type) where
  | ok (a : α)
  | opError (e : JsError)
  | circuitOpenError (remainingMs : Int)
  deriving DecidableEq, Repr

/-- JavaScript arithmetic coercion of a possibly-`null` number:
`null` coerces to `0`. -/
def jsNumOpt (x : Option Int) : Int := x.getD 0

/-- Truthiness test plus elapsed-cooldown check:
`!monitor.cooldownStart || (now - monitor.cooldownStart >= cooldownPeriod)`. -/
def cooldownReady (cfg : CBConfig) (now : Int) (cs : Option Int) : Bool :=
  match cs with
  | none => true
  | some c => decide (cfg.cooldownPeriod ≤ now - c)

/-- Body of the `try`/`catch` of `CircuitBreaker.execute`, run once the
OPEN gate has been passed.  `opOutcome` is the resolution of
`await operation()`. -/
def cbTryBlock {α : Type} (cfg : CBConfig) (now : Int) (m : Monitor)
    (opOutcome : Except JsError α) : CBResult α × Monitor :=
  match opOutcome with
  | .ok a =>
    let m1 : Monitor := { m with lastSuccess := some now, successes := m.successes + 1 }
    let m2 : Monitor :=
      if m1.status = .HALF_OPEN then
        if cfg.successThreshold ≤ m1.successes then
          { m1 with status := .CLOSED, failures := 0, cooldownStart := none }
        else m1
      else { m1 with failures := m1.failures - 1 }
    (.ok a, m2)
  | .error e =>
    let m1 : Monitor := { m with failures := m.failures + 1, lastFailure := some now,
                                 successes := 0 }
    let m2 : Monitor :=
      if decide (cfg.failureThreshold ≤ m1.failures) && cooldownReady cfg now m1.cooldownStart then
        { m1 with status := .OPEN, cooldownStart := some now }
      else m1
    (.opError e, m2)

/-- `CircuitBreaker.execute` for one key, as a pure state transformer on
that key's monitor.  The returned `Bool` records whether the wrapped
operation was invoked at all. -/
def cbExecute {α : Type} (cfg : CBConfig) (now : Int) (m : Monitor)
    (opOutcome : Except JsError α) : CBResult α × Monitor × Bool :=
  if m.status = .OPEN then
    if cfg.resetTimeout ≤ now - jsNumOpt m.lastFailure then
      let m1 : Monitor := { m with status := .HALF_OPEN, successes := 0 }
      let p := cbTryBlock cfg now m1 opOutcome
      (p.1, p.2, true)
    else
      (.circuitOpenError (cfg.resetTimeout - (now - jsNumOpt m.lastFailure)), m, false)
  else
    let p := cbTryBlock cfg now m opOutcome
    (p.1, p.2, true)

/-- C2: a call against an OPEN monitor made strictly before `resetTimeout`
has elapsed since the last recorded failure is rejected with the
circuit-open error, leaves the monitor untouched and never invokes the
operation; a call made at or after `resetTimeout` invokes the operation,
running the try-block on the monitor transitioned to HALF_OPEN with its
success counter reset to 0. -/
theorem cbExecute_open_gate {α : Type} (cfg : CBConfig) (now lf : Int)
    (m : Monitor) (opOutcome : Except JsError α)
    (hst : m.status = .OPEN) (hlf : m.lastFailure = some lf) :
    (now - lf < cfg.resetTimeout →
        cbExecute cfg now m opOutcome =
          (.circuitOpenError (cfg.resetTimeout - (now - lf)), m, false)) ∧
      (cfg.resetTimeout ≤ now - lf →
        cbExecute cfg now m opOutcome =
          ((cbTryBlock cfg now { m with status := .HALF_OPEN, successes := 0 } opOutcome).1,
           (cbTryBlock cfg now { m with status := .HALF_OPEN, successes := 0 } opOutcome).2,
           true)) := by
  constructor
  · intro hlt
    simp [cbExecute, hst, hlf, jsNumOpt, not_le.mpr hlt]
  · intro hge
    simp [cbExecute, hst, hlf, jsNumOpt, hge]

/-- Concrete instance of `cbExecute_open_gate`: with the default
configuration, an OPEN monitor whose last failure is 1000 ms old rejects a
call at time 2000 without invoking the operation. -/
theorem cbExecute_open_gate_witness :
    cbExecute (α := Unit) defaultCBConfig 2000
        ⟨8, 0, some 1000, none, .OPEN, some 1000⟩ (.ok ()) =
      (.circuitOpenError 119000, ⟨8, 0, some 1000, none, .OPEN, some 1000⟩, false) :=
  (cbExecute_open_gate defaultCBConfig 2000 1000
      ⟨8, 0, some 1000, none, .OPEN, some 1000⟩ (.ok ()) rfl rfl).1 (by decide)

/-- C3: in HALF_OPEN, a successful operation increments the success
counter, and the monitor closes exactly when that counter reaches
`successThreshold`, in which case the failure count is zeroed and the
cooldown start cleared; a failing operation resets the success counter to
0. -/
theorem cbExecute_half_open {α : Type} (cfg : CBConfig) (now : Int)
    (m : Monitor) (a : α) (e : JsError) (hst : m.status = .HALF_OPEN) :
    ((cbExecute cfg now m (Except.ok a)).2.1.successes = m.successes + 1) ∧
      ((cbExecute cfg now m (Except.ok a)).2.1.status = .CLOSED ↔
        cfg.successThreshold ≤ m.successes + 1) ∧
      (cfg.successThreshold ≤ m.successes + 1 →
        (cbExecute cfg now m (Except.ok a)).2.1.failures = 0 ∧
          (cbExecute cfg now m (Except.ok a)).2.1.cooldownStart = none) ∧
      ((cbExecute (α := α) cfg now m (Except.error e)).2.1.successes = 0) := by
  refine ⟨?_, ⟨?_, ?_⟩, ?_, ?_⟩
  · by_cases h : cfg.successThreshold ≤ m.successes + 1 <;>
      simp [cbExecute, cbTryBlock, hst, h]
  · intro hclosed
    by_cases h : cfg.successThreshold ≤ m.successes + 1
    · exact h
    · simp [cbExecute, cbTryBlock, hst, h] at hclosed
  · intro h
    simp [cbExecute, cbTryBlock, hst, h]
  · intro h
    simp [cbExecute, cbTryBlock, hst, h]
  · by_cases h : (decide (cfg.failureThreshold ≤ m.failures + 1) &&
        cooldownReady cfg now m.cooldownStart) = true <;>
      simp [cbExecute, cbTryBlock, hst, h]

/-- Concrete instance of `cbExecute_half_open` at the default
configuration: one success in HALF_OPEN does not yet close the circuit
(threshold is 2). -/
theorem cbExecute_half_open_witness :
    ¬ ((cbExecute (α := Unit) defaultCBConfig 5000
          ⟨3, 0, some 100, none, .HALF_OPEN, some 100⟩ (Except.ok ())).2.1.status = .CLOSED) := by
  have h := (cbExecute_half_open (α := Unit) defaultCBConfig 5000
    ⟨3, 0, some 100, none, .HALF_OPEN, some 100⟩ () ⟨"x", none⟩ rfl).2.1
  intro hc
  have := h.mp hc
  simp [defaultCBConfig] at this

/-- C4: in CLOSED, a successful operation leaves the state CLOSED and
decrements the failure count by one, floored at zero; a failing operation
increments the failure count, and the monitor transitions to OPEN
(recording `cooldownStart := now`) exactly when the new failure count
reaches `failureThreshold` and either no cooldown is active or the
cooldown period has elapsed since the last cooldown start; below the
threshold the state remains CLOSED. -/
theorem cbExecute_closed {α : Type} (cfg : CBConfig) (now : Int)
    (m : Monitor) (a : α) (e : JsError) (hst : m.status = .CLOSED) :
    (cbExecute cfg now m (Except.ok a) =
        (.ok a, { m with lastSuccess := some now, successes := m.successes + 1,
                         failures := m.failures - 1 }, true)) ∧
      ((cbExecute (α := α) cfg now m (Except.error e)).2.1.failures = m.failures + 1) ∧
      ((cbExecute (α := α) cfg now m (Except.error e)).2.1.status = .OPEN ↔
        (cfg.failureThreshold ≤ m.failures + 1 ∧
          (m.cooldownStart = none ∨
            ∃ cs, m.cooldownStart = some cs ∧ cfg.cooldownPeriod ≤ now - cs))) ∧
      ((cbExecute (α := α) cfg now m (Except.error e)).2.1.status = .OPEN →
        (cbExecute (α := α) cfg now m (Except.error e)).2.1.cooldownStart = some now) ∧
      (m.failures + 1 < cfg.failureThreshold →
        (cbExecute (α := α) cfg now m (Except.error e)).2.1.status = .CLOSED) := by
  refine ⟨?_, ?_, ⟨?_, ?_⟩, ?_, ?_⟩
  · simp [cbExecute, cbTryBlock, hst]
  · by_cases h : (decide (cfg.failureThreshold ≤ m.failures + 1) &&
        cooldownReady cfg now m.cooldownStart) = true <;>
      simp [cbExecute, cbTryBlock, hst, h]
  · intro hres
    by_cases h : (decide (cfg.failureThreshold ≤ m.failures + 1) &&
        cooldownReady cfg now m.cooldownStart) = true
    · simp only [Bool.and_eq_true, decide_eq_true_eq] at h
      obtain ⟨h1, h2⟩ := h
      refine ⟨h1, ?_⟩
      cases hcs : m.cooldownStart with
      | none => exact Or.inl rfl
      | some c =>
        right
        refine ⟨c, rfl, ?_⟩
        rw [hcs] at h2
        exact of_decide_eq_true h2
    · simp [cbExecute, cbTryBlock, hst, h] at hres
  · intro hcond
    obtain ⟨h1, h2⟩ := hcond
    have hready : cooldownReady cfg now m.cooldownStart = true := by
      rcases h2 with hnone | ⟨cs, hcs, hle⟩
      · rw [hnone]; rfl
      · rw [hcs]; exact decide_eq_true hle
    simp [cbExecute, cbTryBlock, hst, decide_eq_true h1, hready]
  · intro hres
    by_cases h : (decide (cfg.failureThreshold ≤ m.failures + 1) &&
        cooldownReady cfg now m.cooldownStart) = true
    · simp [cbExecute, cbTryBlock, hst, h]
    · simp [cbExecute, cbTryBlock, hst, h] at hres
  · intro hlt
    have h : (decide (cfg.failureThreshold ≤ m.failures + 1) &&
        cooldownReady cfg now m.cooldownStart) = false := by
      have : ¬ cfg.failureThreshold ≤ m.failures + 1 := by omega
      simp [this]
    simp [cbExecute, cbTryBlock, hst, h]

/-- Concrete instance of `cbExecute_closed` at the default configuration:
an eighth consecutive failure with no active cooldown opens the circuit. -/
theorem cbExecute_closed_witness :
    ((cbExecute (α := Unit) defaultCBConfig 9000
        ⟨7, 0, some 100, none, .CLOSED, none⟩ (Except.error ⟨"down", none⟩)).2.1.status = .OPEN) :=
  ((cbExecute_closed (α := Unit) defaultCBConfig 9000
      ⟨7, 0, some 100, none, .CLOSED, none⟩ () ⟨"down", none⟩ rfl).2.2.1).mpr
    ⟨by decide, Or.inl rfl⟩

/-- `checkRateLimit` (src/src/controllers/monday-controller.js, lines
43-61) for one item: prune timestamps older than the window, reject when
the pruned count has reached the per-window maximum, otherwise record the
current timestamp and admit.  Returns the admission flag and the stored
request list. -/
def checkRateLimit (maxReq : Nat) (window now : Int) (requests : List Int) :
    Bool × List Int :=
  let pruned := requests.filter (fun t => decide (now - t < window))
  if maxReq ≤ pruned.length then (false, pruned)
  else (true, pruned ++ [now])

/-- Repeated `checkRateLimit` calls at the given list of timestamps,
starting from the stored list `requests`; returns how many calls were
admitted together with the final stored list. -/
def rateLimitRun (maxReq : Nat) (window : Int) :
    List Int → List Int → Nat × List Int
  | requests, [] => (0, requests)
  | requests, t :: ts =>
    let c := checkRateLimit maxReq window t requests
    let rest := rateLimitRun maxReq window c.2 ts
    ((if c.1 then 1 else 0) + rest.1, rest.2)

lemma rateLimitRun_replicate (maxReq : Nat) (window : Int) (hw : 0 < window)
    (t : Int) :
    ∀ n k, k ≤ maxReq →
      rateLimitRun maxReq window (List.replicate k t) (List.replicate n t) =
        (min (k + n) maxReq - k, List.replicate (min (k + n) maxReq) t) := by
  intro n
  induction n with
  | zero =>
    intro k hk
    simp [rateLimitRun, Nat.min_eq_left hk]
  | succ nn ih =>
    intro k hk
    have hfilter : (List.replicate k t).filter (fun x => decide (t - x < window)) =
        List.replicate k t := by
      apply List.filter_eq_self.mpr
      intro a ha
      rw [List.eq_of_mem_replicate ha]
      simp only [decide_eq_true_eq]
      omega
    by_cases hcase : maxReq ≤ k
    · have hc : checkRateLimit maxReq window t (List.replicate k t) =
          (false, List.replicate k t) := by
        simp [checkRateLimit, hfilter, hcase]
      have hmin1 : min (k + (nn + 1)) maxReq = maxReq := by omega
      have hmin2 : min (k + nn) maxReq = maxReq := by omega
      rw [List.replicate_succ, rateLimitRun]
      simp [hc, ih k hk, hmin1, hmin2]
    · have hlt : k < maxReq := Nat.lt_of_not_le hcase
      have hcons : List.replicate k t ++ [t] = t :: List.replicate k t := by
        rw [← List.replicate_succ', List.replicate_succ]
      have hc : checkRateLimit maxReq window t (List.replicate k t) =
          (true, t :: List.replicate k t) := by
        simp [checkRateLimit, hfilter, hcase, hcons]
      have ihk : rateLimitRun maxReq window (t :: List.replicate k t) (List.replicate nn t) =
          (min (k + 1 + nn) maxReq - (k + 1), List.replicate (min (k + 1 + nn) maxReq) t) := by
        have h := ih (k + 1) hlt
        rwa [List.replicate_succ] at h
      have hlist : min (k + 1 + nn) maxReq = min (k + (nn + 1)) maxReq := by omega
      rw [List.replicate_succ, rateLimitRun]
      simp [hc, ihk, hlist]
      all_goals omega

/-- C6: the per-item sliding-window rate limiter: (1) each call prunes
timestamps older than the 60-second window, admits (appending the current
timestamp) exactly when the pruned count is strictly below the per-window
maximum, and rejects (appending nothing) otherwise; (2) after any call on
a bounded window the stored list never exceeds the maximum; (3) out of `n`
calls within one instant exactly `min n maxReq` are admitted; (4) with a
full window the next call is rejected; (5) once the window's timestamps
have aged out a call is admitted again. -/
theorem checkRateLimit_spec (maxReq : Nat) (window : Int)
    (hm : 0 < maxReq) (hw : 0 < window) :
    (∀ (now : Int) (rl : List Int),
        checkRateLimit maxReq window now rl =
          (if (rl.filter (fun t => decide (now - t < window))).length < maxReq
            then (true, rl.filter (fun t => decide (now - t < window)) ++ [now])
            else (false, rl.filter (fun t => decide (now - t < window))))) ∧
      (∀ (now : Int) (rl : List Int), rl.length ≤ maxReq →
        (checkRateLimit maxReq window now rl).2.length ≤ maxReq) ∧
      (∀ (n : Nat) (t : Int),
        (rateLimitRun maxReq window [] (List.replicate n t)).1 = min n maxReq) ∧
      (∀ t : Int,
        (checkRateLimit maxReq window t (List.replicate maxReq t)).1 = false) ∧
      (∀ t tLater : Int, window ≤ tLater - t →
        (checkRateLimit maxReq window tLater (List.replicate maxReq t)).1 = true) := by
  refine ⟨?_, ?_, ?_, ?_, ?_⟩
  · intro now rl
    by_cases h : (rl.filter (fun t => decide (now - t < window))).length < maxReq
    · simp [checkRateLimit, h, Nat.not_le.mpr h]
    · simp [checkRateLimit, h, Nat.le_of_not_lt h]
  · intro now rl hlen
    have hple : (rl.filter (fun t => decide (now - t < window))).length ≤ rl.length :=
      List.length_filter_le _ _
    by_cases h : maxReq ≤ (rl.filter (fun t => decide (now - t < window))).length
    · simp only [checkRateLimit, if_pos h]
      omega
    · simp only [checkRateLimit, if_neg h, List.length_append, List.length_singleton]
      omega
  · intro n t
    have h := rateLimitRun_replicate maxReq window hw t n 0 (Nat.zero_le _)
    simpa using congrArg Prod.fst h
  · intro t
    have hfilter : (List.replicate maxReq t).filter (fun x => decide (t - x < window)) =
        List.replicate maxReq t := by
      apply List.filter_eq_self.mpr
      intro a ha
      rw [List.eq_of_mem_replicate ha]
      simp only [decide_eq_true_eq]
      omega
    simp [checkRateLimit, hfilter]
  · intro t tl hage
    have hfilter : (List.replicate maxReq t).filter (fun x => decide (tl - x < window)) =
        [] := by
      apply List.filter_eq_nil_iff.mpr
      intro a ha
      rw [List.eq_of_mem_replicate ha]
      simp only [decide_eq_true_eq]
      omega
    have hz : ¬ maxReq ≤ 0 := by omega
    simp [checkRateLimit, hfilter, hz]

/-- Concrete instance of `checkRateLimit_spec`: with a maximum of 20
requests per 60-second window, 21 calls at one instant admit exactly 20. -/
theorem checkRateLimit_spec_witness :
    (rateLimitRun 20 60000 [] (List.replicate 21 (0 : Int))).1 = min 21 20 :=
  (checkRateLimit_spec 20 60000 (by decide) (by decide)).2.2.1 21 0

/-- Containment of `pat` as a contiguous run inside a character list;
models JavaScript `String.prototype.includes` on the underlying
characters. -/
def containsSeq (pat : List Char) : List Char → Bool
  | [] => pat.isEmpty
  | c :: rest => pat.isPrefixOf (c :: rest) || containsSeq pat rest

/-- JavaScript `s.includes(pat)`. -/
def strIncludes (s pat : String) : Bool := containsSeq pat.data s.data

/-- `getBackoffDelay` (monday-controller.js, lines 63-73): an
8s/12s/15s ramp for complexity-budget errors, 2s-doubling capped at 10s
otherwise. -/
def getBackoffDelay (retryCount : Nat) (errorType : String) : Nat :=
  if errorType = "complexity" then min (8000 + retryCount * 4000) 15000
  else min (2 ^ retryCount * 2000) 10000

/-- Condition of the retry branch of `processFileQueue`
(monday-controller.js, lines 177-184), evaluated after the task's retry
counter has been incremented: below the local retry maximum, not an
authentication error, and one of the retryable classes (timeout,
connection reset, missing public URL, complexity budget). -/
def retryableAfterIncrement (maxRetries retryCount : Nat) (e : JsError) : Bool :=
  decide (retryCount < maxRetries) && !(strIncludes e.msg "not authenticated") &&
    (e.code == some "ETIMEDOUT" || e.code == some "ECONNRESET" ||
      strIncludes e.msg "Failed to get public URL" ||
      strIncludes e.msg "Complexity budget exhausted")

/-- One file-transfer task in an item's queue: the file's asset id, the
task's mutable retry counter, and the outcome `processFile` would produce
on each invocation (indexed by the retry count at call time). -/
structure FileTask where
  assetId : Nat
  retryCount : Nat
  behavior : Nat → Except JsError Unit

/-- Mutable state touched by one `processFileQueue` drain
(monday-controller.js, lines 116-217) for a single item key: the FIFO
queue, the defensive de-dup set `processedFiles` (kept in insertion
order), the per-item processed count, the retry backoff delays applied so
far, and the item's rate-limit window. -/
structure DrainState where
  queue : List FileTask
  processedFiles : List Nat
  processedCount : Nat
  backoffDelays : List Nat
  rateRequests : List Int

/-- The `while` loop of `processFileQueue`, in a sequential semantics with
all rate-limit timestamps taken at one instant `0` (the runs settled here
do not span a window boundary) and the concurrency counter left implicit
(in a sequential run `concurrentFiles` is back to 0 at every check, below
`MAX_CONCURRENT_FILES`).  `fuel` bounds the number of loop iterations. -/
def drainLoop (maxRetries maxPerWindow : Nat) (window : Int) :
    Nat → DrainState → DrainState
  | 0, st => st
  | fuel + 1, st =>
    match st.queue with
    | [] => st
    | task :: rest =>
      let c := checkRateLimit maxPerWindow window 0 st.rateRequests
      if !c.1 then
        drainLoop maxRetries maxPerWindow window fuel { st with rateRequests := c.2 }
      else
        let st1 : DrainState := { st with rateRequests := c.2 }
        if task.assetId ∈ st1.processedFiles then
          drainLoop maxRetries maxPerWindow window fuel { st1 with queue := rest }
        else
          match task.behavior task.retryCount with
          | .ok _ =>
            drainLoop maxRetries maxPerWindow window fuel
              { st1 with
                  queue := rest,
                  processedFiles := st1.processedFiles ++ [task.assetId],
                  processedCount := st1.processedCount + 1 }
          | .error e =>
            if retryableAfterIncrement maxRetries (task.retryCount + 1) e then
              drainLoop maxRetries maxPerWindow window fuel
                { st1 with
                  queue := { task with retryCount := task.retryCount + 1 } :: rest,
                  backoffDelays := st1.backoffDelays ++
                    [getBackoffDelay (task.retryCount + 1)
                      (if strIncludes e.msg "Complexity budget exhausted"
                        then "complexity" else "standard")] }
            else
              drainLoop maxRetries maxPerWindow window fuel
                { st1 with
                    queue := rest,
                    processedFiles := st1.processedFiles ++ [task.assetId] }

/-- C7: a queue of three tasks with pairwise distinct asset ids, where
tasks 1 and 3 succeed at once and task 2 always fails with an
authentication error, drains to: task 1 processed, task 2 dropped on its
first failure with no retry backoff delay ever applied, task 3 processed,
and a final per-item processed count of 2. -/
theorem drain_auth_error_dropped
    (a1 a2 a3 : Nat) (b1 b2 b3 : Nat → Except JsError Unit) (e2 : JsError)
    (h12 : a1 ≠ a2) (h13 : a1 ≠ a3) (h23 : a2 ≠ a3)
    (hb1 : b1 0 = .ok ()) (hb2 : b2 0 = .error e2) (hb3 : b3 0 = .ok ())
    (hauth : strIncludes e2.msg "not authenticated" = true) :
    drainLoop 10 20 60000 4
        ⟨[⟨a1, 0, b1⟩, ⟨a2, 0, b2⟩, ⟨a3, 0, b3⟩], [], 0, [], []⟩ =
      ⟨[], [a1, a2, a3], 2, [], [0, 0, 0]⟩ := by
  have hrl0 : checkRateLimit 20 60000 0 ([] : List Int) = (true, [0]) := by decide
  have hrl1 : checkRateLimit 20 60000 0 [(0 : Int)] = (true, [0, 0]) := by decide
  have hrl2 : checkRateLimit 20 60000 0 [(0 : Int), 0] = (true, [0, 0, 0]) := by
    decide
  simp [drainLoop, hrl0, hrl1, hrl2, hb1, hb2, hb3, hauth,
    retryableAfterIncrement, Ne.symm h12, Ne.symm h13, Ne.symm h23]

/-- Concrete run of `drain_auth_error_dropped`: asset ids 1, 2, 3, task 2
failing with a "not authenticated" error. -/
theorem drain_auth_error_dropped_witness :
    drainLoop 10 20 60000 4
        ⟨[⟨1, 0, fun _ => .ok ()⟩,
          ⟨2, 0, fun _ => .error ⟨"not authenticated", none⟩⟩,
          ⟨3, 0, fun _ => .ok ()⟩], [], 0, [], []⟩ =
      ⟨[], [1, 2, 3], 2, [], [0, 0, 0]⟩ :=
  drain_auth_error_dropped 1 2 3 (fun _ => .ok ())
    (fun _ => .error ⟨"not authenticated", none⟩) (fun _ => .ok ())
    ⟨"not authenticated", none⟩
    (by decide) (by decide) (by decide) rfl rfl rfl (by decide)

/-- Per-item bookkeeping consulted by the entry guards of the pipeline:
the item's queue (`fileQueues[itemId]`, `none` = `undefined`), the drain
busy flag (`processingStatus[itemId]`), and whether a `processingItems`
record exists for the item. -/
structure ItemState where
  queue : Option (List FileTask)
  busy : Bool
  hasRecord : Bool

/-- How an invocation of `processFileQueue` is dispatched at its entry. -/
inductive QueueEntryOutcome where
  | cleanedUp
  | alreadyRunning
  | entered
  deriving DecidableEq, Repr

/-- Entry guards of `processFileQueue` (monday-controller.js, lines
116-123): a missing or empty queue tears the per-item state down
(`cleanupItem`); a set busy flag returns immediately without entering the
loop; otherwise the busy flag is set and the drain loop is entered. -/
def processFileQueueGuard (st : ItemState) : QueueEntryOutcome × ItemState :=
  match st.queue with
  | none => (.cleanedUp, ⟨none, false, false⟩)
  | some q =>
    if q.isEmpty then (.cleanedUp, ⟨none, false, false⟩)
    else if st.busy then (.alreadyRunning, st)
    else (.entered, { st with busy := true })

/-- How an enqueue request (`handleTask`) is dispatched at its
duplicate-check. -/
inductive EnqueueOutcome where
  | acknowledgedDuplicate
  | proceedsToEnqueue
  deriving DecidableEq, Repr

/-- Duplicate-request guard of `handleTask` (monday-controller.js, lines
891-903): when a `processingItems` record already exists the request is
acknowledged as already-processing and nothing new is created; otherwise
a record is created and the request goes on to build the queue. -/
def handleTaskDupCheck (st : ItemState) : EnqueueOutcome × ItemState :=
  if st.hasRecord then (.acknowledgedDuplicate, st)
  else (.proceedsToEnqueue, { st with hasRecord := true })

/-- C8: single-flight per item key: while the busy flag is set for an
item with a non-empty queue, any further `processFileQueue` invocation
returns immediately as already-running without entering the loop and
leaves the state untouched; and while a processing record exists, a
second enqueue request is acknowledged as a duplicate no-op that creates
no second queue or loop. -/
theorem single_flight_guards (st : ItemState) (q : List FileTask)
    (hq : st.queue = some q) (hne : q ≠ []) :
    (st.busy = true → processFileQueueGuard st = (.alreadyRunning, st)) ∧
      (st.hasRecord = true →
        handleTaskDupCheck st = (.acknowledgedDuplicate, st)) := by
  constructor
  · intro hbusy
    cases q with
    | nil => exact absurd rfl hne
    | cons t ts => simp [processFileQueueGuard, hq, hbusy]
  · intro hrec
    simp [handleTaskDupCheck, hrec]

/-- Concrete instance of `single_flight_guards`: a busy item with one
queued task; both duplicate-trigger paths are no-ops. -/
theorem single_flight_guards_witness :
    processFileQueueGuard ⟨some [⟨1, 0, fun _ => Except.ok ()⟩], true, true⟩ =
        (.alreadyRunning, ⟨some [⟨1, 0, fun _ => Except.ok ()⟩], true, true⟩) ∧
      handleTaskDupCheck ⟨some [⟨1, 0, fun _ => Except.ok ()⟩], true, true⟩ =
        (.acknowledgedDuplicate,
          ⟨some [⟨1, 0, fun _ => Except.ok ()⟩], true, true⟩) :=
  ⟨(single_flight_guards ⟨some [⟨1, 0, fun _ => Except.ok ()⟩], true, true⟩
      [⟨1, 0, fun _ => Except.ok ()⟩] rfl (by simp)).1 rfl,
    (single_flight_guards ⟨some [⟨1, 0, fun _ => Except.ok ()⟩], true, true⟩
      [⟨1, 0, fun _ => Except.ok ()⟩] rfl (by simp)).2 rfl⟩

/-- Upload response of `processFile` as inspected after the multipart
upload (monday-controller.js, lines 509-519): the HTTP `ok` flag, the
HTTP `statusText`, and `errors[0].message` when the response body carries
a non-empty `errors` array. -/
structure UploadResp where
  ok : Bool
  statusText : String
  errors : Option String

/-- How the upload response is disposed of on the non-throwing paths. -/
inductive UploadDisposition where
  | notifiedEarlyReturn
  | proceedsAsSuccess
  deriving DecidableEq, Repr

/-- Error branch of `processFile` after the upload: on a non-ok response
or an errors array, the error message is the first error's message
(falling back to `statusText`); the exact message
`Value exceeded max value for column` sends a user notification and
returns normally, any other message throws `Upload failed: ...`. -/
def handleUploadResult (resp : UploadResp) : Except JsError UploadDisposition :=
  if !resp.ok || resp.errors.isSome then
    let errorMsg := resp.errors.getD resp.statusText
    if errorMsg = "Value exceeded max value for column" then
      .ok .notifiedEarlyReturn
    else .error ⟨"Upload failed: " ++ errorMsg, none⟩
  else .ok .proceedsAsSuccess

/-- C9: an upload response carrying exactly the downstream message
`Value exceeded max value for column` (in its errors array, or as the
status text of a non-ok error-free response) results in a notification
and a normal return, so the task counts as completed; every other non-ok
upload response throws an upload-failure error. -/
theorem handleUploadResult_spec (resp : UploadResp) :
    (resp.errors = some "Value exceeded max value for column" →
        handleUploadResult resp = .ok .notifiedEarlyReturn) ∧
      (resp.ok = false → resp.errors = none →
        resp.statusText = "Value exceeded max value for column" →
        handleUploadResult resp = .ok .notifiedEarlyReturn) ∧
      (resp.ok = false →
        resp.errors.getD resp.statusText ≠ "Value exceeded max value for column" →
        handleUploadResult resp =
          .error ⟨"Upload failed: " ++ resp.errors.getD resp.statusText, none⟩) := by
  refine ⟨?_, ?_, ?_⟩
  · intro he
    simp [handleUploadResult, he]
  · intro hok hne hst
    simp [handleUploadResult, hok, hne, hst]
  · intro hok hne
    simp [handleUploadResult, hok, hne]

/-- Concrete instance of `handleUploadResult_spec`: a response whose
errors array carries exactly the business-rule message is converted into
a notification and a normal return. -/
theorem handleUploadResult_spec_witness :
    handleUploadResult ⟨true, "OK", some "Value exceeded max value for column"⟩ =
      .ok .notifiedEarlyReturn :=
  (handleUploadResult_spec
      ⟨true, "OK", some "Value exceeded max value for column"⟩).1 rfl

/-- One `MetricsTracker` bucket (src/src/utils/MetricsTracker.js). -/
structure MetricBucket where
  count : Nat
  failures : Nat
  success : Nat
  totalTime : Nat
  lastUpdate : Int
  deriving DecidableEq, Repr

/-- Key under which `MetricsTracker.track` stores a bucket: the template
literal `category:event`. -/
def metricKey (category event : String) : String := category ++ ":" ++ event

/-- JavaScript `key.startsWith(category)`: raw prefix match on the
underlying characters. -/
def jsStartsWith (key pre : String) : Bool := pre.data.isPrefixOf key.data

/-- `MetricsTracker.getMetrics` over the metrics map, modelled as an
association list in insertion order: keeps every entry whose key starts
with the raw `category` string. -/
def getMetrics (metrics : List (String × MetricBucket)) (category : String) :
    List (String × MetricBucket) :=
  metrics.filter (fun kv => jsStartsWith kv.1 category)

/-- C10: `getMetrics` selects by raw string prefix on the full
`category:event` key, so a query for a category `c` also returns every
bucket belonging to any extended category `c ++ ext`; the category
argument is not delimited by the `:` separator. -/
theorem getMetrics_prefix_overlap (metrics : List (String × MetricBucket))
    (c ext ev : String) (b : MetricBucket)
    (hmem : (metricKey (c ++ ext) ev, b) ∈ metrics) :
    (metricKey (c ++ ext) ev, b) ∈ getMetrics metrics c := by
  apply List.mem_filter.mpr
  refine ⟨hmem, ?_⟩
  show jsStartsWith (metricKey (c ++ ext) ev) c = true
  unfold jsStartsWith metricKey
  apply List.isPrefixOf_iff_prefix.mpr
  rw [String.data_append, String.data_append, String.data_append,
    List.append_assoc, List.append_assoc]
  exact List.prefix_append c.data _

/-- Concrete instance of `getMetrics_prefix_overlap`: the bucket stored
under `xy:z` is returned by a `getMetrics` query for category `x`. -/
theorem getMetrics_prefix_overlap_witness :
    (metricKey ("x" ++ "y") "z", (⟨5, 0, 5, 0, 0⟩ : MetricBucket)) ∈
      getMetrics [(metricKey ("x" ++ "y") "z", ⟨5, 0, 5, 0, 0⟩)] "x" :=
  getMetrics_prefix_overlap [(metricKey ("x" ++ "y") "z", ⟨5, 0, 5, 0, 0⟩)]
    "x" "y" "z" ⟨5, 0, 5, 0, 0⟩ (by simp)
